import Mathlib

/-!
Verification of lightrag/utils/document_converter.py.

The module is embedded shallowly:
  pure data:     Config (the process-wide args defaults), Env (the
                 filesystem and the external collaborators: the package
                 installer and the third-party parsing libraries, given as
                 oracle functions), DocumentConverter (the class, holding
                 only its engine string).
  effects:       every operation returns, besides its result, the Config it
                 finished with (the source never assigns to args, and the
                 embedding threads the configuration through every branch so
                 that this is a theorem, not a typing accident) and the list
                 of Events it produced: log lines and calls to
                 pm.install_version.
  errors:        Python exceptions become constructors of ConvError carrying
                 the data the exception message is formatted from.
  machine ints:  file sizes are Nat byte counts.  The source compares
                 st_size / (1024*1024) (a float) with max_size_mb (an int);
                 since 1024*1024 is a power of two the float division is
                 exact for any realistic size, so the comparison is embedded
                 exactly as the integer comparison
                 size_bytes > max_size_mb * 1048576.
  UTF-8:         bytes.decode("utf-8") is embedded as utf8Decode, a strict
                 UTF-8 decoder (continuation bytes, overlong forms,
                 surrogates and out-of-range code points all rejected, as in
                 CPython).  Reading a file in text mode, open(p, "r",
                 encoding="utf-8"), decodes the same way and then applies
                 universal-newline translation (\x5cr\x5cn and \x5cr become
                 \x5cn), embedded as univNewlines.
-/

/-- Events observable during a conversion: log lines emitted through the
logger, and calls to pm.install_version (an install event records that the
call was made; whether it succeeded is decided by Env.installOk). -/
inductive Event where
  | logInfo (msg : String)
  | logError (msg : String)
  | install (pkg : String) (ver : String)
  deriving Repr, DecidableEq

/-- The errors convert_file can raise.  Each constructor carries the data
the corresponding Python exception message is formatted from: notFound the
path ("File not found: {path}"), tooLarge the actual size in bytes and the
allowed size in MB ("File size (..MB) exceeds maximum allowed size (..MB)"),
unsupported the lower-cased extension, installError the package whose
installation failed, decodeError a UnicodeDecodeError. -/
inductive ConvError where
  | notFound (path : String)
  | tooLarge (sizeBytes : Nat) (allowedMB : Int)
  | unsupported (ext : String)
  | decodeError
  | installError (pkg : String)
  deriving Repr, DecidableEq

/-- The process-wide configuration (the fields of args read by the module,
after the module-level defaulting of lines 13-51). -/
structure Config where
  max_file_size_mb : Int
  pdf_reader : String
  pdf_reader_version : String
  docx_reader : String
  docx_reader_version : String
  docx_reader_fallback : String
  docx_reader_fallback_version : String
  pptx_reader : String
  pptx_reader_version : String
  pptx_reader_fallback : String
  pptx_reader_fallback_version : String
  xlsx_reader : String
  xlsx_reader_version : String
  doc_converter : String
  doc_converter_version : String
  deriving Repr, DecidableEq

/-- The args object as it may arrive from lightrag.api.config: any field may
be absent (hasattr false). -/
structure ArgsIn where
  max_file_size_mb : Option Int := none
  pdf_reader : Option String := none
  pdf_reader_version : Option String := none
  docx_reader : Option String := none
  docx_reader_version : Option String := none
  docx_reader_fallback : Option String := none
  docx_reader_fallback_version : Option String := none
  pptx_reader : Option String := none
  pptx_reader_version : Option String := none
  pptx_reader_fallback : Option String := none
  pptx_reader_fallback_version : Option String := none
  xlsx_reader : Option String := none
  xlsx_reader_version : Option String := none
  doc_converter : Option String := none
  doc_converter_version : Option String := none

/-- Module import time, lines 13-51: every absent attribute of args is given
its default. -/
def setDefaults (a : ArgsIn) : Config where
  max_file_size_mb := a.max_file_size_mb.getD 10
  pdf_reader := a.pdf_reader.getD "pypdf2"
  pdf_reader_version := a.pdf_reader_version.getD "latest"
  docx_reader := a.docx_reader.getD "python-docx"
  docx_reader_version := a.docx_reader_version.getD "latest"
  docx_reader_fallback := a.docx_reader_fallback.getD "docx"
  docx_reader_fallback_version := a.docx_reader_fallback_version.getD "latest"
  pptx_reader := a.pptx_reader.getD "python-pptx"
  pptx_reader_version := a.pptx_reader_version.getD "latest"
  pptx_reader_fallback := a.pptx_reader_fallback.getD "pptx"
  pptx_reader_fallback_version := a.pptx_reader_fallback_version.getD "latest"
  xlsx_reader := a.xlsx_reader.getD "openpyxl"
  xlsx_reader_version := a.xlsx_reader_version.getD "latest"
  doc_converter := a.doc_converter.getD "docling"
  doc_converter_version := a.doc_converter_version.getD "latest"

/-- The configuration when lightrag.api.config supplies none of the fields. -/
def defaultConfig : Config := setDefaults {}

/-- A workbook as openpyxl presents it to the code: the sheets in order,
each a title together with its rows of cells; a cell is none for None and
otherwise the str() rendering of its value. -/
abbrev Workbook := List (String × List (List (Option String)))

/-- The environment of one run: the filesystem (bytes of each existing
path) and the external collaborators, as oracle functions.  installOk says
whether a pm.install_version call for the given package and version
succeeds; the parse oracles give what the third-party libraries extract
from the file bytes; docling gives the markdown the universal converter
exports for a path. -/
structure Env where
  fs : String → Option (List Nat)
  installOk : String → String → Bool
  parsePdf : List Nat → List String
  parseDocx : List Nat → List String
  parsePptx : List Nat → List (List (Option String))
  parseXlsx : List Nat → Workbook
  docling : String → String

/-- Is b a UTF-8 continuation byte. -/
def isCont (b : Nat) : Bool := 128 ≤ b && b ≤ 191

/-- Strict UTF-8 decoding of a byte list, as bytes.decode("utf-8"):
rejects stray or missing continuation bytes, overlong encodings,
surrogates and code points above 0x10FFFF. -/
def utf8Decode : List Nat → Option (List Char)
  | [] => some []
  | b0 :: rest =>
    if b0 ≤ 127 then
      match utf8Decode rest with
      | some cs => some (Char.ofNat b0 :: cs)
      | none => none
    else if 194 ≤ b0 ∧ b0 ≤ 223 then
      match rest with
      | b1 :: rest2 =>
        if isCont b1 then
          match utf8Decode rest2 with
          | some cs => some (Char.ofNat ((b0 - 192) * 64 + (b1 - 128)) :: cs)
          | none => none
        else none
      | [] => none
    else if 224 ≤ b0 ∧ b0 ≤ 239 then
      match rest with
      | b1 :: b2 :: rest3 =>
        if isCont b1 ∧ isCont b2 then
          if 2048 ≤ (b0 - 224) * 4096 + (b1 - 128) * 64 + (b2 - 128) ∧
             ¬(55296 ≤ (b0 - 224) * 4096 + (b1 - 128) * 64 + (b2 - 128) ∧
               (b0 - 224) * 4096 + (b1 - 128) * 64 + (b2 - 128) ≤ 57343) then
            match utf8Decode rest3 with
            | some cs =>
                some (Char.ofNat ((b0 - 224) * 4096 + (b1 - 128) * 64 + (b2 - 128)) :: cs)
            | none => none
          else none
        else none
      | _ => none
    else if 240 ≤ b0 ∧ b0 ≤ 244 then
      match rest with
      | b1 :: b2 :: b3 :: rest4 =>
        if isCont b1 ∧ isCont b2 ∧ isCont b3 then
          if 65536 ≤ (b0 - 240) * 262144 + (b1 - 128) * 4096 + (b2 - 128) * 64 + (b3 - 128) ∧
             (b0 - 240) * 262144 + (b1 - 128) * 4096 + (b2 - 128) * 64 + (b3 - 128) ≤ 1114111 then
            match utf8Decode rest4 with
            | some cs =>
                some (Char.ofNat
                  ((b0 - 240) * 262144 + (b1 - 128) * 4096 + (b2 - 128) * 64 + (b3 - 128)) :: cs)
            | none => none
          else none
        else none
      | _ => none
    else none

/-- Universal-newline translation applied by open(p, "r"): each \x5cr\x5cn
pair and each lone \x5cr becomes \x5cn. -/
def univNewlines : List Char → List Char
  | [] => []
  | '\r' :: '\n' :: rest => '\n' :: univNewlines rest
  | '\r' :: rest => '\n' :: univNewlines rest
  | c :: rest => c :: univNewlines rest

/-- ASCII lower-casing of a string, as str.lower on the extensions the code
handles (all ASCII). -/
def strLower (s : String) : String := String.mk (s.toList.map Char.toLower)

/-- Split a character list at every occurrence of the separator. -/
def splitChar (sep : Char) (cs : List Char) : List (List Char) :=
  cs.foldr
    (fun c acc =>
      match acc with
      | [] => [[c]]
      | cur :: rest => if c = sep then [] :: cur :: rest else (c :: cur) :: rest)
    [[]]

/-- pathlib Path.name: the final path component. -/
def pathName (p : String) : String :=
  match (((splitChar '/' p.toList).map String.mk).filter (fun s => s ≠ "")).getLast? with
  | some n => n
  | none => ""

/-- pathlib Path.suffix: the final dot-extension of the name, empty when the
last dot is the first character or the last. -/
def pathSuffix (p : String) : String :=
  let n := (pathName p).toList
  match ((n.enum.filter (fun x => x.2 = '.')).map (fun x => x.1)).getLast? with
  | some i => if 0 < i ∧ i < n.length - 1 then String.mk (n.drop i) else ""
  | none => ""

/-- The extensions of line 112, whose files are not pre-read as bytes but
left for a text-mode open in convert_text_file. -/
def directReadExts : List String := [".txt", ".md", ".html", ".htm", ".py", ".js"]

/-- The plain-text extensions of the dispatch at lines 123-127. -/
def textExts : List String :=
  [".txt", ".md", ".html", ".htm", ".tex", ".json", ".xml",
   ".yaml", ".yml", ".rtf", ".odt", ".epub", ".csv", ".log",
   ".conf", ".ini", ".properties", ".sql", ".bat", ".sh",
   ".c", ".cpp", ".py", ".java", ".js", ".ts", ".swift",
   ".go", ".rb", ".php", ".css", ".scss", ".less"]

/-- install_package_with_version: logs the attempt, then calls
pm.install_version; the result is ok on success and an installError for the
package on failure.  Both events are recorded either way, the install event
standing for the call itself. -/
def install_package_with_version (env : Env) (package_name : String) (version : String) :
    Except ConvError Unit × List Event :=
  (if env.installOk package_name version then .ok () else .error (.installError package_name),
   [.logInfo ("Installing " ++ package_name ++ " version " ++ version),
    .install package_name version])

instance : DecidableEq (Except ConvError String) := fun x y =>
  match x, y with
  | .ok a, .ok b =>
    if h : a = b then .isTrue (congrArg Except.ok h)
    else .isFalse (fun hh => h (Except.ok.inj hh))
  | .error a, .error b =>
    if h : a = b then .isTrue (congrArg Except.error h)
    else .isFalse (fun hh => h (Except.error.inj hh))
  | .ok _, .error _ => .isFalse (fun hh => Except.noConfusion hh)
  | .error _, .ok _ => .isFalse (fun hh => Except.noConfusion hh)

/-- What one call to the converter produces: the returned text or raised
error, the configuration as it stands afterwards, and the events emitted. -/
structure ConvOut where
  result : Except ConvError String
  cfg : Config
  events : List Event
  deriving Repr, DecidableEq

/-- The DocumentConverter class: it holds only the engine choice. -/
structure DocumentConverter where
  engine : String := "DOCLING"
  deriving Repr, DecidableEq

/-- convert_with_docling: install the universal-converter package, then
return its markdown export for the path. -/
def DocumentConverter.convert_with_docling (self : DocumentConverter) (cfg : Config)
    (env : Env) (file_path : String) : ConvOut :=
  let inst := install_package_with_version env cfg.doc_converter cfg.doc_converter_version
  match inst.1 with
  | .error e => ⟨.error e, cfg, inst.2⟩
  | .ok _ => ⟨.ok (env.docling file_path), cfg, inst.2⟩

/-- convert_text_file: when file_content is truthy (bytes were pre-read and
nonempty) decode them as UTF-8, logging the file name and re-raising on
failure; otherwise open the file in text mode, which decodes as UTF-8 with
universal newlines and raises without logging. -/
def DocumentConverter.convert_text_file (self : DocumentConverter) (cfg : Config)
    (env : Env) (file_path : String) (file_content : Option (List Nat)) : ConvOut :=
  if file_content.getD [] ≠ [] then
    match utf8Decode (file_content.getD []) with
    | some cs => ⟨.ok (String.mk cs), cfg, []⟩
    | none => ⟨.error .decodeError, cfg,
        [.logError ("File " ++ pathName file_path ++ " is not valid UTF-8 encoded text.")]⟩
  else
    match utf8Decode ((env.fs file_path).getD []) with
    | some cs => ⟨.ok (String.mk (univNewlines cs)), cfg, []⟩
    | none => ⟨.error .decodeError, cfg, []⟩

/-- convert_pdf: docling in DOCLING mode; otherwise install the PDF reader
(failure propagates) and concatenate each page followed by a newline,
parsing from the pre-read bytes when truthy, else from the path. -/
def DocumentConverter.convert_pdf (self : DocumentConverter) (cfg : Config)
    (env : Env) (file_path : String) (file_content : Option (List Nat)) : ConvOut :=
  if self.engine = "DOCLING" then self.convert_with_docling cfg env file_path
  else
    let inst := install_package_with_version env cfg.pdf_reader cfg.pdf_reader_version
    match inst.1 with
    | .error e => ⟨.error e, cfg, inst.2⟩
    | .ok _ =>
      let pages :=
        if file_content.getD [] ≠ [] then env.parsePdf (file_content.getD [])
        else env.parsePdf ((env.fs file_path).getD [])
      ⟨.ok (String.join (pages.map (fun page => page ++ "\n"))), cfg, inst.2⟩

/-- convert_docx: docling in DOCLING mode; otherwise try to install the
primary DOCX package and, if that fails for any reason, install the fallback
package instead (a fallback failure propagates); then join the document's
paragraph texts with newlines. -/
def DocumentConverter.convert_docx (self : DocumentConverter) (cfg : Config)
    (env : Env) (file_path : String) (file_content : Option (List Nat)) : ConvOut :=
  if self.engine = "DOCLING" then self.convert_with_docling cfg env file_path
  else
    let first := install_package_with_version env cfg.docx_reader cfg.docx_reader_version
    let inst :=
      match first.1 with
      | .ok _ => first
      | .error _ =>
        let second := install_package_with_version env
          cfg.docx_reader_fallback cfg.docx_reader_fallback_version
        (second.1, first.2 ++ second.2)
    match inst.1 with
    | .error e => ⟨.error e, cfg, inst.2⟩
    | .ok _ =>
      let paragraphs :=
        if file_content.getD [] ≠ [] then env.parseDocx (file_content.getD [])
        else env.parseDocx ((env.fs file_path).getD [])
      ⟨.ok (String.intercalate "\n" paragraphs), cfg, inst.2⟩

/-- convert_pptx: docling in DOCLING mode; otherwise primary install with
fallback as for DOCX, then append text plus newline for every shape that
has text, slide by slide. -/
def DocumentConverter.convert_pptx (self : DocumentConverter) (cfg : Config)
    (env : Env) (file_path : String) (file_content : Option (List Nat)) : ConvOut :=
  if self.engine = "DOCLING" then self.convert_with_docling cfg env file_path
  else
    let first := install_package_with_version env cfg.pptx_reader cfg.pptx_reader_version
    let inst :=
      match first.1 with
      | .ok _ => first
      | .error _ =>
        let second := install_package_with_version env
          cfg.pptx_reader_fallback cfg.pptx_reader_fallback_version
        (second.1, first.2 ++ second.2)
    match inst.1 with
    | .error e => ⟨.error e, cfg, inst.2⟩
    | .ok _ =>
      let slides :=
        if file_content.getD [] ≠ [] then env.parsePptx (file_content.getD [])
        else env.parsePptx ((env.fs file_path).getD [])
      ⟨.ok (String.join (slides.map (fun slide =>
          String.join ((slide.filterMap id).map (fun t => t ++ "\n"))))), cfg, inst.2⟩

/-- convert_xlsx: docling in DOCLING mode; otherwise install the spreadsheet
package (failure propagates) and render each sheet as a header line, its
rows tab-joined with empty strings for None cells, and a trailing blank
line. -/
def DocumentConverter.convert_xlsx (self : DocumentConverter) (cfg : Config)
    (env : Env) (file_path : String) (file_content : Option (List Nat)) : ConvOut :=
  if self.engine = "DOCLING" then self.convert_with_docling cfg env file_path
  else
    let inst := install_package_with_version env cfg.xlsx_reader cfg.xlsx_reader_version
    match inst.1 with
    | .error e => ⟨.error e, cfg, inst.2⟩
    | .ok _ =>
      let wb :=
        if file_content.getD [] ≠ [] then env.parseXlsx (file_content.getD [])
        else env.parseXlsx ((env.fs file_path).getD [])
      ⟨.ok (String.join (wb.map (fun sheet =>
          "Sheet: " ++ sheet.1 ++ "\n" ++
          String.join (sheet.2.map (fun row =>
            String.intercalate "\t" (row.map (fun cell => cell.getD "")) ++ "\n")) ++
          "\n"))), cfg, inst.2⟩

/-- convert_file, lines 81-138: resolve the effective size limit, check
existence, check size (exactly the float comparison of the source, see the
header note), pre-read bytes unless the lower-cased suffix is one of the
six direct-read extensions, then dispatch on the lower-cased suffix. -/
def DocumentConverter.convert_file (self : DocumentConverter) (cfg : Config)
    (env : Env) (file_path : String) (max_size_mb : Option Int) : ConvOut :=
  let maxMB : Int := max_size_mb.getD cfg.max_file_size_mb
  match env.fs file_path with
  | none => ⟨.error (.notFound file_path), cfg, []⟩
  | some bytes =>
    if (bytes.length : Int) > maxMB * 1048576 then
      ⟨.error (.tooLarge bytes.length maxMB), cfg, []⟩
    else
      let file_content : Option (List Nat) :=
        if strLower (pathSuffix file_path) ∈ directReadExts then none else some bytes
      let ext := strLower (pathSuffix file_path)
      if ext ∈ textExts then self.convert_text_file cfg env file_path file_content
      else if ext = ".pdf" then self.convert_pdf cfg env file_path file_content
      else if ext = ".docx" then self.convert_docx cfg env file_path file_content
      else if ext = ".pptx" then self.convert_pptx cfg env file_path file_content
      else if ext = ".xlsx" then self.convert_xlsx cfg env file_path file_content
      else ⟨.error (.unsupported ext), cfg, []⟩

/-- Written from the spec's words, for comparison with the code: for each
sheet, emit a header line Sheet: name, then for each row emit tab-joined
cell values (empty string for missing cells), then a blank line separator
after each sheet. -/
def xlsxRenderSpec (wb : Workbook) : String :=
  String.join (wb.map (fun sheet =>
    "Sheet: " ++ sheet.1 ++ "\n" ++
    String.join (sheet.2.map (fun row =>
      String.intercalate "\t" (row.map (fun cell => cell.getD "")) ++ "\n")) ++
    "\n"))

/-- A small concrete filesystem used by the witness statements. -/
def wFs : String → Option (List Nat) := fun p =>
  if p = "a.json" then some [104, 105]
  else if p = "bad.txt" then some [255]
  else if p = "bad.json" then some [255]
  else if p = "crlf.txt" then some [97, 13, 10, 98]
  else if p = "doc.PDF" then some [1, 2]
  else if p = "doc.pdf" then some [1, 2]
  else if p = "big.xyz" then some [7, 7, 7]
  else if p = "book.xlsx" then some [9]
  else if p = "report.docx" then some [3]
  else if p = "notes.xyz" then some [1]
  else none

/-- A concrete environment where every installation succeeds. -/
def envOk : Env where
  fs := wFs
  installOk := fun _ _ => true
  parsePdf := fun _ => ["page one"]
  parseDocx := fun _ => ["Hello", "World"]
  parsePptx := fun _ => [[some "title", none]]
  parseXlsx := fun _ => [("Sheet1", [[some "1", some "2"], [some "3", none]])]
  docling := fun _ => "markdown output"

/-- The same environment, but only the package named docx installs
successfully: the primary DOCX reader, the PDF reader and the spreadsheet
reader all fail to install. -/
def envFb : Env := { envOk with installOk := fun pkg _ => pkg = "docx" }


theorem convert_with_docling_cfg (self : DocumentConverter) (cfg : Config) (env : Env)
    (p : String) : (self.convert_with_docling cfg env p).cfg = cfg := by
  cases h : env.installOk cfg.doc_converter cfg.doc_converter_version <;>
    simp [DocumentConverter.convert_with_docling, install_package_with_version, h]

theorem convert_text_file_cfg (self : DocumentConverter) (cfg : Config) (env : Env)
    (p : String) (fc : Option (List Nat)) :
    (self.convert_text_file cfg env p fc).cfg = cfg := by
  unfold DocumentConverter.convert_text_file
  split
  · split <;> rfl
  · split <;> rfl

theorem convert_pdf_cfg (self : DocumentConverter) (cfg : Config) (env : Env)
    (p : String) (fc : Option (List Nat)) :
    (self.convert_pdf cfg env p fc).cfg = cfg := by
  unfold DocumentConverter.convert_pdf
  split
  · exact convert_with_docling_cfg ..
  · cases h : env.installOk cfg.pdf_reader cfg.pdf_reader_version <;>
      simp [install_package_with_version, h]

theorem convert_docx_cfg (self : DocumentConverter) (cfg : Config) (env : Env)
    (p : String) (fc : Option (List Nat)) :
    (self.convert_docx cfg env p fc).cfg = cfg := by
  unfold DocumentConverter.convert_docx
  split
  · exact convert_with_docling_cfg ..
  · cases h1 : env.installOk cfg.docx_reader cfg.docx_reader_version <;>
      cases h2 : env.installOk cfg.docx_reader_fallback cfg.docx_reader_fallback_version <;>
      simp [install_package_with_version, h1, h2]

theorem convert_pptx_cfg (self : DocumentConverter) (cfg : Config) (env : Env)
    (p : String) (fc : Option (List Nat)) :
    (self.convert_pptx cfg env p fc).cfg = cfg := by
  unfold DocumentConverter.convert_pptx
  split
  · exact convert_with_docling_cfg ..
  · cases h1 : env.installOk cfg.pptx_reader cfg.pptx_reader_version <;>
      cases h2 : env.installOk cfg.pptx_reader_fallback cfg.pptx_reader_fallback_version <;>
      simp [install_package_with_version, h1, h2]

theorem convert_xlsx_cfg (self : DocumentConverter) (cfg : Config) (env : Env)
    (p : String) (fc : Option (List Nat)) :
    (self.convert_xlsx cfg env p fc).cfg = cfg := by
  unfold DocumentConverter.convert_xlsx
  split
  · exact convert_with_docling_cfg ..
  · cases h : env.installOk cfg.xlsx_reader cfg.xlsx_reader_version <;>
      simp [install_package_with_version, h]

theorem convert_file_cfg (self : DocumentConverter) (cfg : Config) (env : Env)
    (p : String) (m : Option Int) : (self.convert_file cfg env p m).cfg = cfg := by
  unfold DocumentConverter.convert_file
  cases hfs : env.fs p with
  | none => rfl
  | some bytes =>
    by_cases h2 : m.getD cfg.max_file_size_mb * 1048576 < (bytes.length : Int)
    · simp [h2]
    · by_cases h3 : strLower (pathSuffix p) ∈ textExts
      · simp [h2, h3, convert_text_file_cfg]
      · by_cases h4 : strLower (pathSuffix p) = ".pdf"
        · rw [h4] at h3; simp [h2, h3, h4, convert_pdf_cfg]
        · by_cases h5 : strLower (pathSuffix p) = ".docx"
          · rw [h5] at h3; simp [h2, h3, h4, h5, convert_docx_cfg]
          · by_cases h6 : strLower (pathSuffix p) = ".pptx"
            · rw [h6] at h3; simp [h2, h3, h4, h5, h6, convert_pptx_cfg]
            · by_cases h7 : strLower (pathSuffix p) = ".xlsx"
              · rw [h7] at h3; simp [h2, h3, h4, h5, h6, h7, convert_xlsx_cfg]
              · simp [h2, h3, h4, h5, h6, h7]

theorem convert_file_to_text (self : DocumentConverter) (cfg : Config) (env : Env)
    (p : String) (m : Option Int) (b : List Nat)
    (hf : env.fs p = some b)
    (hsize : ¬ m.getD cfg.max_file_size_mb * 1048576 < (b.length : Int))
    (hext : strLower (pathSuffix p) ∈ textExts) :
    self.convert_file cfg env p m =
      self.convert_text_file cfg env p
        (if strLower (pathSuffix p) ∈ directReadExts then none else some b) := by
  unfold DocumentConverter.convert_file
  simp [hf, hsize, hext]

theorem convert_file_to_pdf (self : DocumentConverter) (cfg : Config) (env : Env)
    (p : String) (m : Option Int) (b : List Nat)
    (hf : env.fs p = some b)
    (hsize : ¬ m.getD cfg.max_file_size_mb * 1048576 < (b.length : Int))
    (hext : strLower (pathSuffix p) = ".pdf") :
    self.convert_file cfg env p m = self.convert_pdf cfg env p (some b) := by
  unfold DocumentConverter.convert_file
  simp [hf, hsize, hext, textExts, directReadExts]

theorem convert_file_to_docx (self : DocumentConverter) (cfg : Config) (env : Env)
    (p : String) (m : Option Int) (b : List Nat)
    (hf : env.fs p = some b)
    (hsize : ¬ m.getD cfg.max_file_size_mb * 1048576 < (b.length : Int))
    (hext : strLower (pathSuffix p) = ".docx") :
    self.convert_file cfg env p m = self.convert_docx cfg env p (some b) := by
  unfold DocumentConverter.convert_file
  simp [hf, hsize, hext, textExts, directReadExts]

theorem convert_file_to_pptx (self : DocumentConverter) (cfg : Config) (env : Env)
    (p : String) (m : Option Int) (b : List Nat)
    (hf : env.fs p = some b)
    (hsize : ¬ m.getD cfg.max_file_size_mb * 1048576 < (b.length : Int))
    (hext : strLower (pathSuffix p) = ".pptx") :
    self.convert_file cfg env p m = self.convert_pptx cfg env p (some b) := by
  unfold DocumentConverter.convert_file
  simp [hf, hsize, hext, textExts, directReadExts]

theorem convert_file_to_xlsx (self : DocumentConverter) (cfg : Config) (env : Env)
    (p : String) (m : Option Int) (b : List Nat)
    (hf : env.fs p = some b)
    (hsize : ¬ m.getD cfg.max_file_size_mb * 1048576 < (b.length : Int))
    (hext : strLower (pathSuffix p) = ".xlsx") :
    self.convert_file cfg env p m = self.convert_xlsx cfg env p (some b) := by
  unfold DocumentConverter.convert_file
  simp [hf, hsize, hext, textExts, directReadExts]

theorem convert_file_to_unsupported (self : DocumentConverter) (cfg : Config) (env : Env)
    (p : String) (m : Option Int) (b : List Nat)
    (hf : env.fs p = some b)
    (hsize : ¬ m.getD cfg.max_file_size_mb * 1048576 < (b.length : Int))
    (h3 : strLower (pathSuffix p) ∉ textExts)
    (h4 : strLower (pathSuffix p) ≠ ".pdf") (h5 : strLower (pathSuffix p) ≠ ".docx")
    (h6 : strLower (pathSuffix p) ≠ ".pptx") (h7 : strLower (pathSuffix p) ≠ ".xlsx") :
    self.convert_file cfg env p m =
      ⟨.error (.unsupported (strLower (pathSuffix p))), cfg, []⟩ := by
  unfold DocumentConverter.convert_file
  simp [hf, hsize, h3, h4, h5, h6, h7]

theorem convert_file_oversize (self : DocumentConverter) (cfg : Config) (env : Env)
    (p : String) (m : Option Int) (b : List Nat)
    (hf : env.fs p = some b)
    (hsize : m.getD cfg.max_file_size_mb * 1048576 < (b.length : Int)) :
    self.convert_file cfg env p m =
      ⟨.error (.tooLarge b.length (m.getD cfg.max_file_size_mb)), cfg, []⟩ := by
  unfold DocumentConverter.convert_file
  simp [hf, hsize]

theorem convert_file_missing (self : DocumentConverter) (cfg : Config) (env : Env)
    (p : String) (m : Option Int) (hf : env.fs p = none) :
    self.convert_file cfg env p m = ⟨.error (.notFound p), cfg, []⟩ := by
  unfold DocumentConverter.convert_file
  simp [hf]

/-- C6: for every path that does not refer to an existing file, convert_file
always fails with a not-found error naming the path, regardless of extension
or requested size limit. -/
theorem claim_C6_missing_file_not_found (self : DocumentConverter) (cfg : Config) (env : Env)
    (p : String) (m : Option Int) (hf : env.fs p = none) :
    (self.convert_file cfg env p m).result = .error (.notFound p) := by
  rw [convert_file_missing self cfg env p m hf]

theorem claim_C6_missing_file_not_found_witness :
    envOk.fs "missing.txt" = none ∧
    (DocumentConverter.convert_file ⟨"DEFAULT"⟩ defaultConfig envOk "missing.txt" none).result =
      .error (.notFound "missing.txt") :=
  ⟨by decide,
   claim_C6_missing_file_not_found ⟨"DEFAULT"⟩ defaultConfig envOk "missing.txt" none (by decide)⟩

/-- C9: the validations run in a fixed order, existence then size then
extension: a missing file yields the not-found error whatever its name, and
an existing oversized file yields the too-large error whatever its
extension, in particular never the unsupported-type error. -/
theorem claim_C9_validation_order (self : DocumentConverter) (cfg : Config) (env : Env)
    (p : String) (m : Option Int) :
    (env.fs p = none → (self.convert_file cfg env p m).result = .error (.notFound p)) ∧
    (∀ b, env.fs p = some b →
       m.getD cfg.max_file_size_mb * 1048576 < (b.length : Int) →
       (self.convert_file cfg env p m).result =
         .error (.tooLarge b.length (m.getD cfg.max_file_size_mb))) := by
  constructor
  · intro hf
    rw [convert_file_missing self cfg env p m hf]
  · intro b hf hsz
    rw [convert_file_oversize self cfg env p m b hf hsz]

theorem claim_C9_validation_order_witness :
    (DocumentConverter.convert_file ⟨"DEFAULT"⟩ defaultConfig envOk "missing.xyz" none).result =
      .error (.notFound "missing.xyz") ∧
    (DocumentConverter.convert_file ⟨"DEFAULT"⟩ defaultConfig envOk "big.xyz" (some 0)).result =
      .error (.tooLarge 3 0) :=
  ⟨(claim_C9_validation_order ⟨"DEFAULT"⟩ defaultConfig envOk "missing.xyz" none).1 (by decide),
   (claim_C9_validation_order ⟨"DEFAULT"⟩ defaultConfig envOk "big.xyz" (some 0)).2
     [7, 7, 7] (by decide) (by decide)⟩

/-- C7: an existing, within-limit file whose lower-cased extension is outside
all recognized sets fails with an unsupported-file-type error naming the
extension. -/
theorem claim_C7_unsupported_extension (self : DocumentConverter) (cfg : Config) (env : Env)
    (p : String) (m : Option Int) (b : List Nat)
    (hf : env.fs p = some b)
    (hsize : ¬ m.getD cfg.max_file_size_mb * 1048576 < (b.length : Int))
    (h3 : strLower (pathSuffix p) ∉ textExts)
    (h4 : strLower (pathSuffix p) ≠ ".pdf") (h5 : strLower (pathSuffix p) ≠ ".docx")
    (h6 : strLower (pathSuffix p) ≠ ".pptx") (h7 : strLower (pathSuffix p) ≠ ".xlsx") :
    (self.convert_file cfg env p m).result =
      .error (.unsupported (strLower (pathSuffix p))) := by
  rw [convert_file_to_unsupported self cfg env p m b hf hsize h3 h4 h5 h6 h7]

theorem claim_C7_unsupported_extension_witness :
    (DocumentConverter.convert_file ⟨"DEFAULT"⟩ defaultConfig envOk "notes.xyz" none).result =
      .error (.unsupported ".xyz") :=
  claim_C7_unsupported_extension ⟨"DEFAULT"⟩ defaultConfig envOk "notes.xyz" none [1]
    (by decide) (by decide) (by decide) (by decide) (by decide) (by decide) (by decide)

theorem convert_with_docling_result (self : DocumentConverter) (cfg : Config) (env : Env)
    (p : String) :
    (self.convert_with_docling cfg env p).result = .ok (env.docling p) ∨
    (self.convert_with_docling cfg env p).result = .error (.installError cfg.doc_converter) := by
  cases h : env.installOk cfg.doc_converter cfg.doc_converter_version <;>
    simp [DocumentConverter.convert_with_docling, install_package_with_version, h]

theorem convert_text_file_no_size_error (self : DocumentConverter) (cfg : Config) (env : Env)
    (p : String) (fc : Option (List Nat)) (s : Nat) (a : Int) :
    (self.convert_text_file cfg env p fc).result ≠ .error (.tooLarge s a) := by
  unfold DocumentConverter.convert_text_file
  split <;> split <;> simp

theorem convert_pdf_no_size_error (self : DocumentConverter) (cfg : Config) (env : Env)
    (p : String) (fc : Option (List Nat)) (s : Nat) (a : Int) :
    (self.convert_pdf cfg env p fc).result ≠ .error (.tooLarge s a) := by
  unfold DocumentConverter.convert_pdf
  split
  · rcases convert_with_docling_result self cfg env p with h | h <;> simp [h]
  · cases h : env.installOk cfg.pdf_reader cfg.pdf_reader_version <;>
      simp [install_package_with_version, h]

theorem convert_docx_no_size_error (self : DocumentConverter) (cfg : Config) (env : Env)
    (p : String) (fc : Option (List Nat)) (s : Nat) (a : Int) :
    (self.convert_docx cfg env p fc).result ≠ .error (.tooLarge s a) := by
  unfold DocumentConverter.convert_docx
  split
  · rcases convert_with_docling_result self cfg env p with h | h <;> simp [h]
  · cases h1 : env.installOk cfg.docx_reader cfg.docx_reader_version <;>
      cases h2 : env.installOk cfg.docx_reader_fallback cfg.docx_reader_fallback_version <;>
      simp [install_package_with_version, h1, h2]

theorem convert_pptx_no_size_error (self : DocumentConverter) (cfg : Config) (env : Env)
    (p : String) (fc : Option (List Nat)) (s : Nat) (a : Int) :
    (self.convert_pptx cfg env p fc).result ≠ .error (.tooLarge s a) := by
  unfold DocumentConverter.convert_pptx
  split
  · rcases convert_with_docling_result self cfg env p with h | h <;> simp [h]
  · cases h1 : env.installOk cfg.pptx_reader cfg.pptx_reader_version <;>
      cases h2 : env.installOk cfg.pptx_reader_fallback cfg.pptx_reader_fallback_version <;>
      simp [install_package_with_version, h1, h2]

theorem convert_xlsx_no_size_error (self : DocumentConverter) (cfg : Config) (env : Env)
    (p : String) (fc : Option (List Nat)) (s : Nat) (a : Int) :
    (self.convert_xlsx cfg env p fc).result ≠ .error (.tooLarge s a) := by
  unfold DocumentConverter.convert_xlsx
  split
  · rcases convert_with_docling_result self cfg env p with h | h <;> simp [h]
  · cases h : env.installOk cfg.xlsx_reader cfg.xlsx_reader_version <;>
      simp [install_package_with_version, h]

/-- C2: for an existing file, the conversion fails with a too-large error
exactly when the byte count strictly exceeds the effective limit (the
explicit argument, else the configured default) times 1048576, which is
exactly the source's size-in-MB comparison; the error carries the actual
size and the allowed size; the configured default is 10 MB. -/
theorem claim_C2_size_limit (self : DocumentConverter) (cfg : Config) (env : Env)
    (p : String) (m : Option Int) (b : List Nat) (hf : env.fs p = some b) :
    ((∃ s a, (self.convert_file cfg env p m).result = .error (.tooLarge s a)) ↔
       m.getD cfg.max_file_size_mb * 1048576 < (b.length : Int)) ∧
    (m.getD cfg.max_file_size_mb * 1048576 < (b.length : Int) →
       (self.convert_file cfg env p m).result =
         .error (.tooLarge b.length (m.getD cfg.max_file_size_mb))) ∧
    defaultConfig.max_file_size_mb = 10 := by
  have hover : ∀ _ : m.getD cfg.max_file_size_mb * 1048576 < (b.length : Int),
      (self.convert_file cfg env p m).result =
        .error (.tooLarge b.length (m.getD cfg.max_file_size_mb)) := by
    intro hsz
    rw [convert_file_oversize self cfg env p m b hf hsz]
  refine ⟨⟨?_, fun hsz => ⟨b.length, m.getD cfg.max_file_size_mb, hover hsz⟩⟩, hover, by decide⟩
  rintro ⟨s, a, hres⟩
  by_contra hsz
  by_cases h3 : strLower (pathSuffix p) ∈ textExts
  · rw [convert_file_to_text self cfg env p m b hf hsz h3] at hres
    exact convert_text_file_no_size_error self cfg env p _ s a hres
  · by_cases h4 : strLower (pathSuffix p) = ".pdf"
    · rw [convert_file_to_pdf self cfg env p m b hf hsz h4] at hres
      exact convert_pdf_no_size_error self cfg env p _ s a hres
    · by_cases h5 : strLower (pathSuffix p) = ".docx"
      · rw [convert_file_to_docx self cfg env p m b hf hsz h5] at hres
        exact convert_docx_no_size_error self cfg env p _ s a hres
      · by_cases h6 : strLower (pathSuffix p) = ".pptx"
        · rw [convert_file_to_pptx self cfg env p m b hf hsz h6] at hres
          exact convert_pptx_no_size_error self cfg env p _ s a hres
        · by_cases h7 : strLower (pathSuffix p) = ".xlsx"
          · rw [convert_file_to_xlsx self cfg env p m b hf hsz h7] at hres
            exact convert_xlsx_no_size_error self cfg env p _ s a hres
          · rw [convert_file_to_unsupported self cfg env p m b hf hsz h3 h4 h5 h6 h7] at hres
            simp at hres

theorem claim_C2_size_limit_witness :
    (DocumentConverter.convert_file ⟨"DEFAULT"⟩ defaultConfig envOk "big.xyz" (some 0)).result =
      .error (.tooLarge 3 0) ∧
    (¬ ∃ s a, (DocumentConverter.convert_file ⟨"DEFAULT"⟩ defaultConfig envOk
        "a.json" none).result = .error (.tooLarge s a)) ∧
    defaultConfig.max_file_size_mb = 10 :=
  ⟨(claim_C2_size_limit ⟨"DEFAULT"⟩ defaultConfig envOk "big.xyz" (some 0) [7, 7, 7]
      (by decide)).2.1 (by decide),
   fun hex => absurd
     ((claim_C2_size_limit ⟨"DEFAULT"⟩ defaultConfig envOk "a.json" none [104, 105]
        (by decide)).1.mp hex) (by decide),
   (claim_C2_size_limit ⟨"DEFAULT"⟩ defaultConfig envOk "big.xyz" (some 0) [7, 7, 7]
      (by decide)).2.2⟩

/-- C8: no call to convert_file mutates the process-wide configuration: each
call finishes with the configuration it started with, and any sequence of
calls leaves the configuration at its initial value. -/
theorem claim_C8_config_never_mutated (self : DocumentConverter) (cfg : Config) (env : Env) :
    (∀ p m, (self.convert_file cfg env p m).cfg = cfg) ∧
    (∀ calls : List (String × Option Int),
       calls.foldl (fun c pr => (self.convert_file c env pr.1 pr.2).cfg) cfg = cfg) := by
  refine ⟨fun p m => convert_file_cfg self cfg env p m, fun calls => ?_⟩
  induction calls generalizing cfg with
  | nil => rfl
  | cons hd tl ih =>
    rw [List.foldl_cons, convert_file_cfg]
    exact ih cfg

theorem convert_text_file_result_same_bytes (self : DocumentConverter) (cfg : Config)
    (env : Env) (p q : String) (fc : Option (List Nat)) (b : List Nat)
    (hp : env.fs p = some b) (hq : env.fs q = some b) :
    (self.convert_text_file cfg env p fc).result =
      (self.convert_text_file cfg env q fc).result := by
  unfold DocumentConverter.convert_text_file
  by_cases hfc : fc.getD [] = []
  · rw [if_neg (not_not_intro hfc), if_neg (not_not_intro hfc), hp, hq]
  · rw [if_pos hfc, if_pos hfc]
    cases utf8Decode (fc.getD []) <;> rfl

theorem convert_pdf_result_same_bytes (self : DocumentConverter) (cfg : Config)
    (env : Env) (p q : String) (fc : Option (List Nat)) (b : List Nat)
    (hp : env.fs p = some b) (hq : env.fs q = some b)
    (hd : env.docling p = env.docling q) :
    (self.convert_pdf cfg env p fc).result = (self.convert_pdf cfg env q fc).result := by
  unfold DocumentConverter.convert_pdf DocumentConverter.convert_with_docling
  by_cases he : self.engine = "DOCLING"
  · rw [if_pos he, if_pos he]
    cases h : env.installOk cfg.doc_converter cfg.doc_converter_version <;>
      simp [install_package_with_version, h, hd]
  · rw [if_neg he, if_neg he, hp, hq]

theorem convert_docx_result_same_bytes (self : DocumentConverter) (cfg : Config)
    (env : Env) (p q : String) (fc : Option (List Nat)) (b : List Nat)
    (hp : env.fs p = some b) (hq : env.fs q = some b)
    (hd : env.docling p = env.docling q) :
    (self.convert_docx cfg env p fc).result = (self.convert_docx cfg env q fc).result := by
  unfold DocumentConverter.convert_docx DocumentConverter.convert_with_docling
  by_cases he : self.engine = "DOCLING"
  · rw [if_pos he, if_pos he]
    cases h : env.installOk cfg.doc_converter cfg.doc_converter_version <;>
      simp [install_package_with_version, h, hd]
  · rw [if_neg he, if_neg he, hp, hq]

theorem convert_pptx_result_same_bytes (self : DocumentConverter) (cfg : Config)
    (env : Env) (p q : String) (fc : Option (List Nat)) (b : List Nat)
    (hp : env.fs p = some b) (hq : env.fs q = some b)
    (hd : env.docling p = env.docling q) :
    (self.convert_pptx cfg env p fc).result = (self.convert_pptx cfg env q fc).result := by
  unfold DocumentConverter.convert_pptx DocumentConverter.convert_with_docling
  by_cases he : self.engine = "DOCLING"
  · rw [if_pos he, if_pos he]
    cases h : env.installOk cfg.doc_converter cfg.doc_converter_version <;>
      simp [install_package_with_version, h, hd]
  · rw [if_neg he, if_neg he, hp, hq]

theorem convert_xlsx_result_same_bytes (self : DocumentConverter) (cfg : Config)
    (env : Env) (p q : String) (fc : Option (List Nat)) (b : List Nat)
    (hp : env.fs p = some b) (hq : env.fs q = some b)
    (hd : env.docling p = env.docling q) :
    (self.convert_xlsx cfg env p fc).result = (self.convert_xlsx cfg env q fc).result := by
  unfold DocumentConverter.convert_xlsx DocumentConverter.convert_with_docling
  by_cases he : self.engine = "DOCLING"
  · rw [if_pos he, if_pos he]
    cases h : env.installOk cfg.doc_converter cfg.doc_converter_version <;>
      simp [install_package_with_version, h, hd]
  · rw [if_neg he, if_neg he, hp, hq]

/-- C10: extension routing is case-insensitive: two files with the same
bytes whose suffixes agree after lower-casing (for instance a file named
with .PDF and its twin named with .pdf) produce the same conversion result;
the universal-converter oracle is assumed to give both names of the same
content the same markdown, since it reads the file itself. -/
theorem claim_C10_case_insensitive_routing (self : DocumentConverter) (cfg : Config)
    (env : Env) (m : Option Int) (p q : String) (b : List Nat)
    (hp : env.fs p = some b) (hq : env.fs q = some b)
    (hsuf : strLower (pathSuffix p) = strLower (pathSuffix q))
    (hd : env.docling p = env.docling q) :
    (self.convert_file cfg env p m).result = (self.convert_file cfg env q m).result := by
  by_cases hsz : m.getD cfg.max_file_size_mb * 1048576 < (b.length : Int)
  · rw [convert_file_oversize self cfg env p m b hp hsz,
        convert_file_oversize self cfg env q m b hq hsz]
  · by_cases h3 : strLower (pathSuffix p) ∈ textExts
    · rw [convert_file_to_text self cfg env p m b hp hsz h3,
          convert_file_to_text self cfg env q m b hq hsz (hsuf ▸ h3), ← hsuf]
      exact convert_text_file_result_same_bytes self cfg env p q _ b hp hq
    · by_cases h4 : strLower (pathSuffix p) = ".pdf"
      · rw [convert_file_to_pdf self cfg env p m b hp hsz h4,
            convert_file_to_pdf self cfg env q m b hq hsz (hsuf ▸ h4)]
        exact convert_pdf_result_same_bytes self cfg env p q _ b hp hq hd
      · by_cases h5 : strLower (pathSuffix p) = ".docx"
        · rw [convert_file_to_docx self cfg env p m b hp hsz h5,
              convert_file_to_docx self cfg env q m b hq hsz (hsuf ▸ h5)]
          exact convert_docx_result_same_bytes self cfg env p q _ b hp hq hd
        · by_cases h6 : strLower (pathSuffix p) = ".pptx"
          · rw [convert_file_to_pptx self cfg env p m b hp hsz h6,
                convert_file_to_pptx self cfg env q m b hq hsz (hsuf ▸ h6)]
            exact convert_pptx_result_same_bytes self cfg env p q _ b hp hq hd
          · by_cases h7 : strLower (pathSuffix p) = ".xlsx"
            · rw [convert_file_to_xlsx self cfg env p m b hp hsz h7,
                  convert_file_to_xlsx self cfg env q m b hq hsz (hsuf ▸ h7)]
              exact convert_xlsx_result_same_bytes self cfg env p q _ b hp hq hd
            · rw [convert_file_to_unsupported self cfg env p m b hp hsz h3 h4 h5 h6 h7,
                  convert_file_to_unsupported self cfg env q m b hq hsz
                    (hsuf ▸ h3) (hsuf ▸ h4) (hsuf ▸ h5) (hsuf ▸ h6) (hsuf ▸ h7), hsuf]

theorem claim_C10_case_insensitive_routing_witness :
    (DocumentConverter.convert_file ⟨"DEFAULT"⟩ defaultConfig envOk "doc.PDF" none).result =
      (DocumentConverter.convert_file ⟨"DEFAULT"⟩ defaultConfig envOk "doc.pdf" none).result :=
  claim_C10_case_insensitive_routing ⟨"DEFAULT"⟩ defaultConfig envOk none
    "doc.PDF" "doc.pdf" [1, 2] (by decide) (by decide) (by decide) rfl

/-- C4: in per-format mode with a successful spreadsheet-package install,
converting an .xlsx file returns exactly the rendering the spec describes:
per sheet a header line, tab-joined rows with empty strings for None cells,
and a blank line after each sheet. -/
theorem claim_C4_xlsx_format (self : DocumentConverter) (cfg : Config) (env : Env)
    (p : String) (m : Option Int) (b : List Nat)
    (heng : self.engine ≠ "DOCLING")
    (hf : env.fs p = some b)
    (hsize : ¬ m.getD cfg.max_file_size_mb * 1048576 < (b.length : Int))
    (hext : strLower (pathSuffix p) = ".xlsx")
    (hinst : env.installOk cfg.xlsx_reader cfg.xlsx_reader_version = true) :
    (self.convert_file cfg env p m).result = .ok (xlsxRenderSpec (env.parseXlsx b)) := by
  rw [convert_file_to_xlsx self cfg env p m b hf hsize hext]
  unfold DocumentConverter.convert_xlsx
  rw [if_neg heng]
  by_cases hb : b = [] <;>
    simp [install_package_with_version, hinst, hf, hb, xlsxRenderSpec]

theorem claim_C4_xlsx_format_witness :
    (DocumentConverter.convert_file ⟨"DEFAULT"⟩ defaultConfig envOk "book.xlsx" none).result =
      .ok "Sheet: Sheet1\n1\t2\n3\t\n\n" ∧
    xlsxRenderSpec [("Sheet1", [[some "1", some "2"], [some "3", none]])] =
      "Sheet: Sheet1\n1\t2\n3\t\n\n" :=
  ⟨(claim_C4_xlsx_format ⟨"DEFAULT"⟩ defaultConfig envOk "book.xlsx" none [9]
      (by decide) (by decide) (by decide) (by decide) (by decide)).trans (by decide),
   by decide⟩

/-- C5: in per-format mode a failed primary DOCX install falls back to the
fallback package and conversion still returns the paragraph texts joined
with newlines, with both install attempts visible in the events; for PDF
and XLSX an install failure propagates as the install error with no
fallback attempt. -/
theorem claim_C5_docx_install_fallback (self : DocumentConverter) (cfg : Config) (env : Env)
    (p : String) (m : Option Int) (b : List Nat)
    (heng : self.engine ≠ "DOCLING")
    (hf : env.fs p = some b)
    (hsize : ¬ m.getD cfg.max_file_size_mb * 1048576 < (b.length : Int))
    (hext : strLower (pathSuffix p) = ".docx")
    (hfail : env.installOk cfg.docx_reader cfg.docx_reader_version = false)
    (hfb : env.installOk cfg.docx_reader_fallback cfg.docx_reader_fallback_version = true) :
    ((self.convert_file cfg env p m).result =
       .ok (String.intercalate "\n" (env.parseDocx b)) ∧
     (self.convert_file cfg env p m).events =
       [.logInfo ("Installing " ++ cfg.docx_reader ++ " version " ++ cfg.docx_reader_version),
        .install cfg.docx_reader cfg.docx_reader_version,
        .logInfo ("Installing " ++ cfg.docx_reader_fallback ++ " version " ++
          cfg.docx_reader_fallback_version),
        .install cfg.docx_reader_fallback cfg.docx_reader_fallback_version]) ∧
    (∀ q b2 m2, env.fs q = some b2 →
       ¬ m2.getD cfg.max_file_size_mb * 1048576 < (b2.length : Int) →
       strLower (pathSuffix q) = ".pdf" →
       env.installOk cfg.pdf_reader cfg.pdf_reader_version = false →
       (self.convert_file cfg env q m2).result = .error (.installError cfg.pdf_reader) ∧
       (self.convert_file cfg env q m2).events =
         [.logInfo ("Installing " ++ cfg.pdf_reader ++ " version " ++ cfg.pdf_reader_version),
          .install cfg.pdf_reader cfg.pdf_reader_version]) ∧
    (∀ q b2 m2, env.fs q = some b2 →
       ¬ m2.getD cfg.max_file_size_mb * 1048576 < (b2.length : Int) →
       strLower (pathSuffix q) = ".xlsx" →
       env.installOk cfg.xlsx_reader cfg.xlsx_reader_version = false →
       (self.convert_file cfg env q m2).result = .error (.installError cfg.xlsx_reader) ∧
       (self.convert_file cfg env q m2).events =
         [.logInfo ("Installing " ++ cfg.xlsx_reader ++ " version " ++ cfg.xlsx_reader_version),
          .install cfg.xlsx_reader cfg.xlsx_reader_version]) := by
  refine ⟨?_, ?_, ?_⟩
  · rw [convert_file_to_docx self cfg env p m b hf hsize hext]
    unfold DocumentConverter.convert_docx
    rw [if_neg heng]
    by_cases hb : b = [] <;>
      simp [install_package_with_version, hfail, hfb, hf, hb]
  · intro q b2 m2 hfq hszq hextq hpdfFail
    rw [convert_file_to_pdf self cfg env q m2 b2 hfq hszq hextq]
    unfold DocumentConverter.convert_pdf
    rw [if_neg heng]
    simp [install_package_with_version, hpdfFail]
  · intro q b2 m2 hfq hszq hextq hxlsxFail
    rw [convert_file_to_xlsx self cfg env q m2 b2 hfq hszq hextq]
    unfold DocumentConverter.convert_xlsx
    rw [if_neg heng]
    simp [install_package_with_version, hxlsxFail]

theorem claim_C5_docx_install_fallback_witness :
    (DocumentConverter.convert_file ⟨"DEFAULT"⟩ defaultConfig envFb "report.docx" none).result =
      .ok "Hello\nWorld" ∧
    (DocumentConverter.convert_file ⟨"DEFAULT"⟩ defaultConfig envFb "report.docx" none).events =
      [.logInfo "Installing python-docx version latest",
       .install "python-docx" "latest",
       .logInfo "Installing docx version latest",
       .install "docx" "latest"] ∧
    (DocumentConverter.convert_file ⟨"DEFAULT"⟩ defaultConfig envFb "doc.pdf" none).result =
      .error (.installError "pypdf2") := by
  have h := claim_C5_docx_install_fallback ⟨"DEFAULT"⟩ defaultConfig envFb "report.docx" none
    [3] (by decide) (by decide) (by decide) (by decide) (by decide) (by decide)
  exact ⟨h.1.1.trans (by decide), h.1.2.trans (by decide),
    (h.2.1 "doc.pdf" [1, 2] none (by decide) (by decide) (by decide) (by decide)).1⟩

theorem convert_text_file_no_install (self : DocumentConverter) (cfg : Config) (env : Env)
    (q : String) (fc : Option (List Nat)) :
    ∀ e ∈ (self.convert_text_file cfg env q fc).events, ∀ pkg ver, e ≠ .install pkg ver := by
  unfold DocumentConverter.convert_text_file
  split
  · split <;> simp
  · split <;> simp

/-- C3: in DOCLING mode every .pdf, .docx, .pptx or .xlsx file routes to the
universal converter: the only install event possible is for the universal
converter package, and when that install succeeds the result is its markdown
export with exactly that one install attempt; plain-text extensions never
produce any install event under any engine. -/
theorem claim_C3_docling_universal (cfg : Config) (env : Env) (p : String) (m : Option Int)
    (b : List Nat)
    (hf : env.fs p = some b)
    (hsize : ¬ m.getD cfg.max_file_size_mb * 1048576 < (b.length : Int))
    (hext : strLower (pathSuffix p) ∈ ([".pdf", ".docx", ".pptx", ".xlsx"] : List String)) :
    (∀ e ∈ (DocumentConverter.convert_file ⟨"DOCLING"⟩ cfg env p m).events,
       ∀ pkg ver, e = .install pkg ver →
         pkg = cfg.doc_converter ∧ ver = cfg.doc_converter_version) ∧
    (env.installOk cfg.doc_converter cfg.doc_converter_version = true →
       (DocumentConverter.convert_file ⟨"DOCLING"⟩ cfg env p m).result =
         .ok (env.docling p) ∧
       (DocumentConverter.convert_file ⟨"DOCLING"⟩ cfg env p m).events =
         [.logInfo ("Installing " ++ cfg.doc_converter ++ " version " ++
            cfg.doc_converter_version),
          .install cfg.doc_converter cfg.doc_converter_version]) ∧
    (∀ engine q m2 b2, env.fs q = some b2 →
       ¬ m2.getD cfg.max_file_size_mb * 1048576 < (b2.length : Int) →
       strLower (pathSuffix q) ∈ textExts →
       ∀ e ∈ (DocumentConverter.convert_file ⟨engine⟩ cfg env q m2).events,
         ∀ pkg ver, e ≠ .install pkg ver) := by
  have hred : DocumentConverter.convert_file ⟨"DOCLING"⟩ cfg env p m =
      DocumentConverter.convert_with_docling ⟨"DOCLING"⟩ cfg env p := by
    simp only [List.mem_cons, List.not_mem_nil, or_false] at hext
    rcases hext with h | h | h | h
    · rw [convert_file_to_pdf _ cfg env p m b hf hsize h]
      unfold DocumentConverter.convert_pdf
      rw [if_pos rfl]
    · rw [convert_file_to_docx _ cfg env p m b hf hsize h]
      unfold DocumentConverter.convert_docx
      rw [if_pos rfl]
    · rw [convert_file_to_pptx _ cfg env p m b hf hsize h]
      unfold DocumentConverter.convert_pptx
      rw [if_pos rfl]
    · rw [convert_file_to_xlsx _ cfg env p m b hf hsize h]
      unfold DocumentConverter.convert_xlsx
      rw [if_pos rfl]
  have hev : (DocumentConverter.convert_file ⟨"DOCLING"⟩ cfg env p m).events =
      [.logInfo ("Installing " ++ cfg.doc_converter ++ " version " ++
         cfg.doc_converter_version),
       .install cfg.doc_converter cfg.doc_converter_version] := by
    rw [hred]
    cases h : env.installOk cfg.doc_converter cfg.doc_converter_version <;>
      simp [DocumentConverter.convert_with_docling, install_package_with_version, h]
  refine ⟨?_, ?_, ?_⟩
  · intro e he pkg ver heq
    rw [hev] at he
    rcases List.mem_cons.mp he with rfl | he2
    · cases heq
    · rcases List.mem_cons.mp he2 with rfl | he3
      · injection heq with h1 h2
        exact ⟨h1.symm, h2.symm⟩
      · exact (List.not_mem_nil e he3).elim
  · intro hinst
    refine ⟨?_, hev⟩
    rw [hred]
    simp [DocumentConverter.convert_with_docling, install_package_with_version, hinst]
  · intro engine q m2 b2 hfq hszq hextq
    rw [convert_file_to_text ⟨engine⟩ cfg env q m2 b2 hfq hszq hextq]
    exact convert_text_file_no_install ⟨engine⟩ cfg env q _

theorem claim_C3_docling_universal_witness :
    (DocumentConverter.convert_file ⟨"DOCLING"⟩ defaultConfig envOk "doc.pdf" none).result =
      .ok "markdown output" ∧
    (DocumentConverter.convert_file ⟨"DOCLING"⟩ defaultConfig envOk "doc.pdf" none).events =
      [.logInfo "Installing docling version latest", .install "docling" "latest"] := by
  have h := (claim_C3_docling_universal defaultConfig envOk "doc.pdf" none [1, 2]
    (by decide) (by decide) (by decide)).2.1 (by decide)
  exact ⟨h.1.trans (by decide), h.2.trans (by decide)⟩

/-- C1 as stated is false on the code: bad.txt holds the single byte 255,
which is not valid UTF-8, and conversion fails with the decode error but
emits no log at all, because files with the six directly-read extensions are
opened in text mode instead of being decoded from pre-read bytes; moreover
crlf.txt shows that for those extensions the returned text is not the exact
UTF-8 decoding of the bytes, since text mode translates newlines. -/
theorem claim_C1_counterexample :
    pathSuffix "bad.txt" = ".txt" ∧
    envOk.fs "bad.txt" = some [255] ∧
    utf8Decode [255] = none ∧
    (DocumentConverter.convert_file ⟨"DEFAULT"⟩ defaultConfig envOk "bad.txt" none).result =
      .error .decodeError ∧
    (DocumentConverter.convert_file ⟨"DEFAULT"⟩ defaultConfig envOk "bad.txt" none).events =
      [] ∧
    envOk.fs "crlf.txt" = some [97, 13, 10, 98] ∧
    utf8Decode [97, 13, 10, 98] = some ['a', '\r', '\n', 'b'] ∧
    (DocumentConverter.convert_file ⟨"DEFAULT"⟩ defaultConfig envOk "crlf.txt" none).result =
      .ok "a\nb" ∧
    "a\nb" ≠ String.mk ['a', '\r', '\n', 'b'] := by
  refine ⟨by decide, by decide, by decide, by decide, by decide, by decide, by decide,
    by decide, by decide⟩

/-- C1 amended: an existing, within-limit file with a plain-text extension
converts to the UTF-8 decoding of its bytes, except that for the six
directly-read extensions (.txt, .md, .html, .htm, .py, .js) the text is
additionally universal-newline translated; on invalid UTF-8 it fails with a
decode error, and the failing file name is logged only for the plain-text
extensions outside those six. -/
theorem claim_C1_text_conversion (self : DocumentConverter) (cfg : Config) (env : Env)
    (p : String) (m : Option Int) (b : List Nat)
    (hf : env.fs p = some b)
    (hsize : ¬ m.getD cfg.max_file_size_mb * 1048576 < (b.length : Int))
    (hext : strLower (pathSuffix p) ∈ textExts) :
    (∀ cs, utf8Decode b = some cs →
       (self.convert_file cfg env p m).result =
         .ok (if strLower (pathSuffix p) ∈ directReadExts then
                String.mk (univNewlines cs)
              else String.mk cs)) ∧
    (utf8Decode b = none →
       (self.convert_file cfg env p m).result = .error .decodeError ∧
       (self.convert_file cfg env p m).events =
         (if strLower (pathSuffix p) ∈ directReadExts then []
          else [.logError ("File " ++ pathName p ++ " is not valid UTF-8 encoded text.")])) := by
  rw [convert_file_to_text self cfg env p m b hf hsize hext]
  by_cases hd : strLower (pathSuffix p) ∈ directReadExts
  · simp only [if_pos hd]
    constructor
    · intro cs hcs
      simp [DocumentConverter.convert_text_file, hf, hcs, hd]
    · intro hn
      simp [DocumentConverter.convert_text_file, hf, hn, hd]
  · simp only [if_neg hd]
    by_cases hb : b = []
    · subst hb
      constructor
      · intro cs hcs
        rw [show utf8Decode [] = some [] from rfl] at hcs
        injection hcs with hcs2
        subst hcs2
        simp [DocumentConverter.convert_text_file, hf, hd,
          show utf8Decode [] = some [] from rfl, univNewlines]
      · intro hn
        rw [show utf8Decode [] = some [] from rfl] at hn
        exact Option.noConfusion hn
    · constructor
      · intro cs hcs
        simp [DocumentConverter.convert_text_file, hb, hcs, hd]
      · intro hn
        simp [DocumentConverter.convert_text_file, hb, hn, hd]

theorem claim_C1_text_conversion_witness :
    (DocumentConverter.convert_file ⟨"DEFAULT"⟩ defaultConfig envOk "a.json" none).result =
      .ok "hi" ∧
    (DocumentConverter.convert_file ⟨"DEFAULT"⟩ defaultConfig envOk "crlf.txt" none).result =
      .ok "a\nb" ∧
    (DocumentConverter.convert_file ⟨"DEFAULT"⟩ defaultConfig envOk "bad.json" none).result =
      .error .decodeError ∧
    (DocumentConverter.convert_file ⟨"DEFAULT"⟩ defaultConfig envOk "bad.json" none).events =
      [.logError "File bad.json is not valid UTF-8 encoded text."] := by
  have h1 := (claim_C1_text_conversion ⟨"DEFAULT"⟩ defaultConfig envOk "a.json" none
    [104, 105] (by decide) (by decide) (by decide)).1 ['h', 'i'] (by decide)
  have h2 := (claim_C1_text_conversion ⟨"DEFAULT"⟩ defaultConfig envOk "crlf.txt" none
    [97, 13, 10, 98] (by decide) (by decide) (by decide)).1 ['a', '\r', '\n', 'b'] (by decide)
  have h3 := (claim_C1_text_conversion ⟨"DEFAULT"⟩ defaultConfig envOk "bad.json" none
    [255] (by decide) (by decide) (by decide)).2 (by decide)
  exact ⟨h1.trans (by decide), h2.trans (by decide), h3.1, h3.2.trans (by decide)⟩
